import Mathlib

/-!
Verification development for the floor-plan → 3-D reconstruction pipeline.

The definitions below are a shallow embedding of the TypeScript source:
  * `src/types/floorplan.ts` — units, rooms;
  * `src/types/detection.ts` — detection primitives (bboxes, wall segments,
    doors, windows);
  * `src/services/floorplanAI.ts` — the detection collaborator
    (`tryModel`'s wall mapping, `MOCK_RESULT`, `detectFloorPlan`);
  * `src/components/RightPanel.tsx` — `WallSegmentMesh`, `DoorMesh`,
    `WindowMesh`, `computePositions`;
  * `src/components/WallReview.tsx` — `commitEdit`, `commitWallEdit`,
    the overlay image-size mapper;
  * `src/components/Sidebar.tsx` — the room width/height/wallHeight inputs;
  * the page component (`Index`) — `handleDetect`, `handleRoomUpdate`,
    `handleWallUpdate`.
Numbers are embedded as `ℚ` (`ℝ` where the source takes a square root);
`parseFloat` of a text field is embedded as its result, an `Option ℚ`
(`none` models `NaN`).
-/

namespace FloorPlanProof

/-! ## Unit conversion (`src/types/floorplan.ts`) -/

inductive DimensionUnit where
  | m
  | cm
  | mm
  | ft
deriving DecidableEq, Repr

structure UnitInfo where
  value : DimensionUnit
  toMeter : ℚ
deriving DecidableEq, Repr

/-- `UNITS` from `src/types/floorplan.ts` (labels dropped, factors kept). -/
def UNITS : List UnitInfo :=
  [⟨.m, 1⟩, ⟨.cm, 0.01⟩, ⟨.mm, 0.001⟩, ⟨.ft, 0.3048⟩]

/-- `UNITS.find((u) => u.value === unit) ?? UNITS[0]` (`WallReview.tsx`,
`Sidebar.tsx`). -/
def currentUnit (u : DimensionUnit) : UnitInfo :=
  (UNITS.find? (fun i => i.value == u)).getD ⟨.m, 1⟩

/-- Display value → canonical meters: `v * currentUnit.toMeter`
(`commitEdit` in `WallReview.tsx`, the Sidebar inputs). -/
def toCanonical (v : ℚ) (u : DimensionUnit) : ℚ := v * (currentUnit u).toMeter

/-- Canonical meters → display value: `raw / currentUnit.toMeter`
(`getDisplay` in `WallReview.tsx`). -/
def fromCanonical (m : ℚ) (u : DimensionUnit) : ℚ := m / (currentUnit u).toMeter

/-- 2-decimal presentation rounding, `+(x).toFixed(2)`: applied by
`getDisplay` to the displayed value only, never to the stored canonical
value. -/
def round2 (q : ℚ) : ℚ := (round (q * 100) : ℤ) / 100

/-! ## Data model (`src/types/floorplan.ts`, `src/types/detection.ts`) -/

inductive Confidence where
  | high
  | low
  | manual
deriving DecidableEq, Repr

/-- Normalised bounding box (0–1 relative to image width/height). -/
structure BBox where
  x : ℚ
  y : ℚ
  w : ℚ
  h : ℚ
deriving DecidableEq, Repr

structure Room where
  id : String
  name : String
  width : ℚ
  height : ℚ
  confidence : Confidence
  material : Option String := none
  finishCost : Option ℚ := none
  wallHeight : Option ℚ := none
  bbox : Option BBox := none
deriving DecidableEq, Repr

inductive WallType where
  | exterior
  | interior
deriving DecidableEq, Repr

structure DetectedWallSegment where
  id : String
  x1 : ℚ
  y1 : ℚ
  x2 : ℚ
  y2 : ℚ
  type : WallType
  thickness : Option ℚ := none
  thicknessRatio : Option ℚ := none
  wallHeight : Option ℚ := none
deriving DecidableEq, Repr

structure DetectedDoor where
  id : String
  bbox : BBox
  widthM : ℚ
deriving DecidableEq, Repr

structure DetectedWindow where
  id : String
  bbox : BBox
  widthM : ℚ
deriving DecidableEq, Repr

structure DetectionResult where
  rooms : List Room
  walls : List DetectedWallSegment
  doors : List DetectedDoor
  windows : List DetectedWindow
  summary : Option String := none
deriving DecidableEq, Repr

/-- `DetectionResult & { usedMock?: boolean; usedModel?: string }`
(`floorplanAI.ts`); an absent `usedMock` is falsy, embedded as `false`. -/
structure DetectFloorPlanResult extends DetectionResult where
  usedMock : Bool := false
  usedModel : Option String := none
deriving DecidableEq, Repr

/-- Plan size constant — maps normalised 0–1 coordinates to world units
(`RightPanel.tsx`). -/
def PLAN_SIZE : ℚ := 20

/-! ## Wall solid builder (`WallSegmentMesh` in `src/components/RightPanel.tsx`) -/

/-- `v * PLAN_SIZE - PLAN_SIZE / 2`: normalised coordinate → world
coordinate. -/
def worldCoord (v : ℚ) : ℚ := v * PLAN_SIZE - PLAN_SIZE / 2

/-- `rawLength = Math.sqrt(dx * dx + dz * dz)` over the world-mapped
endpoints. -/
noncomputable def rawLength (w : DetectedWallSegment) : ℝ :=
  Real.sqrt (((worldCoord w.x2 : ℝ) - (worldCoord w.x1 : ℝ)) *
               ((worldCoord w.x2 : ℝ) - (worldCoord w.x1 : ℝ)) +
             ((worldCoord w.y2 : ℝ) - (worldCoord w.y1 : ℝ)) *
               ((worldCoord w.y2 : ℝ) - (worldCoord w.y1 : ℝ)))

/-- `wall.thickness ?? (wall.type === "exterior" ? 0.25 : 0.15)`
(`RightPanel.tsx` line 181; identically `getWallThickness` in
`WallReview.tsx`). -/
def getWallThickness (w : DetectedWallSegment) : ℚ :=
  w.thickness.getD (match w.type with | .exterior => 0.25 | .interior => 0.15)

/-- `effectiveLength = Math.max(0.01, rawLength - halfT * 2)` with
`halfT = thickness / 2` — the miter-trimmed solid length. -/
noncomputable def effectiveLength (w : DetectedWallSegment) : ℝ :=
  max 0.01 (rawLength w - (getWallThickness w : ℝ) / 2 * 2)

/-! ## Opening orientation (`DoorMesh` / `WindowMesh` in `RightPanel.tsx`) -/

/-- `isHorizontal = bboxW > bboxH` with `bboxW = door.bbox.w * PLAN_SIZE`,
`bboxH = door.bbox.h * PLAN_SIZE`. -/
def doorIsHorizontal (d : DetectedDoor) : Bool :=
  decide (d.bbox.h * PLAN_SIZE < d.bbox.w * PLAN_SIZE)

/-- Same derivation for windows (`WindowMesh`). -/
def windowIsHorizontal (win : DetectedWindow) : Bool :=
  decide (win.bbox.h * PLAN_SIZE < win.bbox.w * PLAN_SIZE)

/-! ## Room placement (`computePositions` in `RightPanel.tsx`) -/

/-- The bbox-path anchor of one room:
`cx = (bbox.x + bbox.w / 2) * PLAN_SIZE - PLAN_SIZE / 2` (likewise `cz`),
returned as `[cx * scale, 0, cz * scale]`. -/
def bboxAnchor (b : BBox) (scale : ℚ) : ℚ × ℚ × ℚ :=
  (((b.x + b.w / 2) * PLAN_SIZE - PLAN_SIZE / 2) * scale, 0,
   ((b.y + b.h / 2) * PLAN_SIZE - PLAN_SIZE / 2) * scale)

/-- `Math.ceil(Math.sqrt(n))` for a natural `n`. -/
def ceilSqrt (n : ℕ) : ℕ :=
  if Nat.sqrt n * Nat.sqrt n = n then Nat.sqrt n else Nat.sqrt n + 1

/-- The fallback-grid inner loop: running `ox` over the scaled room widths,
reset at each row start (`j % cols === 0 && j > 0`), answering
`ox + width_i * scale / 2` at `j = i` (0 if the loop runs out). -/
def gridX (scale : ℚ) (cols i : ℕ) : ℕ → ℚ → List ℚ → ℚ
  | _, _, [] => 0
  | j, ox, wd :: rest =>
    let ox' := if j % cols = 0 ∧ 0 < j then 0 else ox
    if j = i then ox' + wd * scale / 2
    else gridX scale cols i (j + 1) (ox' + wd * scale + 0.8) rest

/-- `computePositions(rooms, scale)`: the bbox path when every room carries
a bbox, the fallback grid otherwise. -/
def computePositions (rooms : List Room) (scale : ℚ) : List (ℚ × ℚ × ℚ) :=
  if rooms.all (fun r => r.bbox.isSome) then
    rooms.map (fun r => bboxAnchor (r.bbox.getD ⟨0, 0, 0, 0⟩) scale)
  else
    let cols := ceilSqrt rooms.length
    (List.range rooms.length).map (fun i =>
      let row : ℕ := i / cols
      let x := gridX scale cols i 0 0 (rooms.map (fun r => r.width))
      (x - 5, 0, (row : ℚ) * 8 - ((rooms.length / cols : ℕ) : ℚ) * 4))

/-! ## Detection collaborator (`src/services/floorplanAI.ts`) -/

/-- A wall object as parsed from the model's JSON (`tryModel`): `type` and
`thicknessRatio` may be absent, an explicit `thickness` is never read. -/
structure RawWall where
  id : String
  x1 : ℚ
  y1 : ℚ
  x2 : ℚ
  y2 : ℚ
  type : Option WallType := none
  thicknessRatio : Option ℚ := none
deriving DecidableEq, Repr

/-- `Math.max(0.05, Math.min(0.5, r * 20))` — image-relative thickness
ratio → meters. -/
def clampThickness (r : ℚ) : ℚ := max 0.05 (min 0.5 (r * 20))

/-- The wall mapping inside `tryModel`: `thickness` is filled from
`thicknessRatio` when present, else from the raw `type`
(`w.type === "exterior" ? 0.25 : 0.15`); `type` defaults to interior. -/
def mapDetectedWall (w : RawWall) : DetectedWallSegment :=
  let thicknessM : ℚ :=
    match w.thicknessRatio with
    | some r => clampThickness r
    | none => match w.type with | some .exterior => 0.25 | _ => 0.15
  { id := w.id, x1 := w.x1, y1 := w.y1, x2 := w.x2, y2 := w.y2,
    type := w.type.getD .interior,
    thickness := some thicknessM,
    thicknessRatio := w.thicknessRatio }

/-- Models tried in order by `detectFloorPlan`. -/
def MODELS : List String :=
  ["gemini-2.0-flash", "gemini-1.5-flash", "gemini-2.0-flash-lite"]

/-- The outcome of one `tryModel` call: a parsed `DetectionResult`, or an
HTTP status (−1 for a JSON parse error). -/
inductive Attempt where
  | success (r : DetectionResult)
  | status (s : ℤ)
deriving DecidableEq, Repr

/-- `API_ERROR_<status>`. -/
def apiError (s : ℤ) : String := "API_ERROR_" ++ toString s

/-- `MOCK_RESULT` — the canned deterministic fallback dataset (quota /
auth failure path), transcribed from `floorplanAI.ts`. -/
def MOCK_RESULT : DetectionResult :=
  { summary := some "แปลนบ้านไทย — ซักล้าง, ครัว, นอน1-3, ห้องน้ำ, รับแขก, โถงโล่ง, เฉลียง (API quota exceeded)",
    rooms :=
      [ { id := "r1", name := "ซักล้าง", confidence := .high, width := 4.0, height := 2.0,
          wallHeight := some 2.8, bbox := some ⟨0.05, 0.02, 0.35, 0.17⟩ },
        { id := "r2", name := "ครัว", confidence := .high, width := 5.5, height := 3.3,
          wallHeight := some 2.8, bbox := some ⟨0.47, 0.02, 0.46, 0.27⟩ },
        { id := "r3", name := "นอน 3", confidence := .high, width := 3.5, height := 3.3,
          wallHeight := some 2.8, bbox := some ⟨0.05, 0.19, 0.31, 0.28⟩ },
        { id := "r4", name := "อาหาร", confidence := .high, width := 2.5, height := 3.3,
          wallHeight := some 2.8, bbox := some ⟨0.36, 0.19, 0.21, 0.28⟩ },
        { id := "r5", name := "ห้องน้ำ", confidence := .high, width := 4.0, height := 2.0,
          wallHeight := some 2.8, bbox := some ⟨0.57, 0.29, 0.36, 0.18⟩ },
        { id := "r6", name := "รับแขก", confidence := .high, width := 3.5, height := 2.8,
          wallHeight := some 2.8, bbox := some ⟨0.05, 0.47, 0.31, 0.25⟩ },
        { id := "r7", name := "โถงโล่ง", confidence := .high, width := 2.5, height := 2.8,
          wallHeight := some 2.8, bbox := some ⟨0.36, 0.47, 0.21, 0.26⟩ },
        { id := "r8", name := "นอน 2", confidence := .high, width := 4.0, height := 2.8,
          wallHeight := some 2.8, bbox := some ⟨0.57, 0.47, 0.36, 0.26⟩ },
        { id := "r9", name := "เฉลียง", confidence := .high, width := 2.5, height := 2.3,
          wallHeight := some 2.8, bbox := some ⟨0.34, 0.73, 0.23, 0.22⟩ },
        { id := "r10", name := "นอน 1", confidence := .high, width := 4.0, height := 2.3,
          wallHeight := some 2.8, bbox := some ⟨0.57, 0.73, 0.36, 0.22⟩ } ],
    walls :=
      [ { id := "w1", x1 := 0.05, y1 := 0.02, x2 := 0.40, y2 := 0.02, type := .exterior,
          thickness := some 0.25, thicknessRatio := some 0.013 },
        { id := "w2", x1 := 0.47, y1 := 0.02, x2 := 0.93, y2 := 0.02, type := .exterior,
          thickness := some 0.25, thicknessRatio := some 0.013 },
        { id := "w3", x1 := 0.93, y1 := 0.02, x2 := 0.93, y2 := 0.95, type := .exterior,
          thickness := some 0.25, thicknessRatio := some 0.013 },
        { id := "w4", x1 := 0.34, y1 := 0.95, x2 := 0.93, y2 := 0.95, type := .exterior,
          thickness := some 0.25, thicknessRatio := some 0.013 },
        { id := "w5", x1 := 0.34, y1 := 0.73, x2 := 0.34, y2 := 0.95, type := .exterior,
          thickness := some 0.25, thicknessRatio := some 0.013 },
        { id := "w6", x1 := 0.05, y1 := 0.02, x2 := 0.05, y2 := 0.72, type := .exterior,
          thickness := some 0.25, thicknessRatio := some 0.013 },
        { id := "w7", x1 := 0.05, y1 := 0.72, x2 := 0.20, y2 := 0.72, type := .exterior,
          thickness := some 0.25, thicknessRatio := some 0.013 },
        { id := "w8", x1 := 0.40, y1 := 0.02, x2 := 0.40, y2 := 0.19, type := .interior,
          thickness := some 0.15, thicknessRatio := some 0.008 },
        { id := "w9", x1 := 0.36, y1 := 0.19, x2 := 0.36, y2 := 0.73, type := .interior,
          thickness := some 0.15, thicknessRatio := some 0.008 },
        { id := "w10", x1 := 0.57, y1 := 0.02, x2 := 0.57, y2 := 0.95, type := .interior,
          thickness := some 0.15, thicknessRatio := some 0.008 },
        { id := "w11", x1 := 0.05, y1 := 0.19, x2 := 0.57, y2 := 0.19, type := .interior,
          thickness := some 0.15, thicknessRatio := some 0.008 },
        { id := "w12", x1 := 0.57, y1 := 0.29, x2 := 0.93, y2 := 0.29, type := .interior,
          thickness := some 0.15, thicknessRatio := some 0.008 },
        { id := "w13", x1 := 0.05, y1 := 0.47, x2 := 0.57, y2 := 0.47, type := .interior,
          thickness := some 0.15, thicknessRatio := some 0.008 },
        { id := "w14", x1 := 0.57, y1 := 0.47, x2 := 0.93, y2 := 0.47, type := .interior,
          thickness := some 0.15, thicknessRatio := some 0.008 },
        { id := "w15", x1 := 0.36, y1 := 0.73, x2 := 0.93, y2 := 0.73, type := .interior,
          thickness := some 0.15, thicknessRatio := some 0.008 } ],
    doors :=
      [ ⟨"d1", ⟨0.20, 0.44, 0.04, 0.035⟩, 0.9⟩,
        ⟨"d2", ⟨0.20, 0.67, 0.04, 0.035⟩, 0.9⟩,
        ⟨"d3", ⟨0.57, 0.38, 0.04, 0.035⟩, 0.9⟩,
        ⟨"d4", ⟨0.57, 0.66, 0.04, 0.035⟩, 0.9⟩,
        ⟨"d5", ⟨0.57, 0.76, 0.04, 0.035⟩, 0.9⟩,
        ⟨"d6", ⟨0.38, 0.71, 0.04, 0.03⟩, 0.9⟩,
        ⟨"d7", ⟨0.37, 0.90, 0.04, 0.035⟩, 0.9⟩ ],
    windows :=
      [ ⟨"win1", ⟨0.05, 0.23, 0.012, 0.07⟩, 1.0⟩,
        ⟨"win2", ⟨0.05, 0.32, 0.012, 0.07⟩, 1.0⟩,
        ⟨"win3", ⟨0.05, 0.50, 0.012, 0.06⟩, 1.0⟩,
        ⟨"win4", ⟨0.10, 0.04, 0.08, 0.010⟩, 1.2⟩,
        ⟨"win5", ⟨0.22, 0.04, 0.08, 0.010⟩, 1.2⟩,
        ⟨"win6", ⟨0.96, 0.49, 0.012, 0.07⟩, 1.0⟩,
        ⟨"win7", ⟨0.96, 0.59, 0.012, 0.07⟩, 1.0⟩,
        ⟨"win8", ⟨0.96, 0.76, 0.012, 0.07⟩, 1.0⟩,
        ⟨"win9", ⟨0.96, 0.85, 0.012, 0.07⟩, 1.0⟩,
        ⟨"win10", ⟨0.60, 0.04, 0.10, 0.010⟩, 1.4⟩,
        ⟨"win11", ⟨0.78, 0.04, 0.10, 0.010⟩, 1.4⟩ ] }

/-- `{ ...MOCK_RESULT, usedMock: true }`. -/
def mockFallback : DetectFloorPlanResult :=
  { toDetectionResult := MOCK_RESULT, usedMock := true }

/-- The tail of `detectFloorPlan` after the model loop: 429 and 403 turn
into the mock result, anything else throws `API_ERROR_<lastStatus>`. -/
def finishDetect (s : ℤ) : Except String DetectFloorPlanResult :=
  if s = 429 then .ok mockFallback
  else if s = 403 then .ok mockFallback
  else .error (apiError s)

/-- The `for (const model of MODELS)` loop: stop on the first parsed result
or the first non-404 status; `lastStatus` carries the latest status when the
list runs out. -/
def runModels (attempt : String → Attempt) :
    List String → ℤ → Except String DetectFloorPlanResult
  | [], last => finishDetect last
  | m :: rest, _ =>
    match attempt m with
    | .success r => .ok { toDetectionResult := r, usedModel := some m }
    | .status s => if s ≠ 404 then finishDetect s else runModels attempt rest s

/-- `detectFloorPlan`: throws `NO_API_KEY` without a configured key, else
runs the model loop with `lastStatus = 0`.  The network layer is embedded
as the oracle `attempt : String → Attempt` giving each model's outcome. -/
def detectFloorPlan (apiKey : Option String) (attempt : String → Attempt) :
    Except String DetectFloorPlanResult :=
  match apiKey with
  | none => .error "NO_API_KEY"
  | some _ => runModels attempt MODELS 0

/-! ## Editable geometry state (`Index` page component) -/

/-- One `onRoomUpdate(id, field, value)` call's field/value pair. -/
inductive RoomEdit where
  | width (v : ℚ)
  | height (v : ℚ)
  | wallHeight (v : ℚ)
  | material (s : String)
deriving DecidableEq, Repr

/-- One room under `handleRoomUpdate`: set the field, and set
`confidence` to `manual` exactly when the field is `width` or `height`
(`field === "width" || field === "height" ? "manual" : r.confidence`). -/
def applyRoomEdit (e : RoomEdit) (r : Room) : Room :=
  match e with
  | .width v => { r with width := v, confidence := .manual }
  | .height v => { r with height := v, confidence := .manual }
  | .wallHeight v => { r with wallHeight := some v }
  | .material s => { r with material := some s }

/-- `handleRoomUpdate`: map over the rooms, editing the matching id. -/
def handleRoomUpdate (id : String) (e : RoomEdit) (rooms : List Room) :
    List Room :=
  rooms.map (fun r => if r.id = id then applyRoomEdit e r else r)

/-- One `onWallUpdate(id, field, value)` call's field/value pair. -/
inductive WallEdit where
  | thickness (v : ℚ)
  | wallHeight (v : ℚ)
  | typeSet (t : WallType)
deriving DecidableEq, Repr

/-- One wall under `handleWallUpdate`: `{ ...w, [field]: value }` — no
confidence is involved (walls carry none). -/
def applyWallEdit (e : WallEdit) (w : DetectedWallSegment) :
    DetectedWallSegment :=
  match e with
  | .thickness v => { w with thickness := some v }
  | .wallHeight v => { w with wallHeight := some v }
  | .typeSet t => { w with type := t }

/-- `handleWallUpdate`. -/
def handleWallUpdate (id : String) (e : WallEdit)
    (walls : List DetectedWallSegment) : List DetectedWallSegment :=
  walls.map (fun w => if w.id = id then applyWallEdit e w else w)

/-! ## Review-panel editing (`src/components/WallReview.tsx`) -/

inductive RoomField where
  | width
  | height
  | wallHeight
deriving DecidableEq, Repr

/-- The pending room edit; `value` is `parseFloat` of the text box
(`none` models `NaN`). -/
structure EditState where
  roomId : String
  field : RoomField
  value : Option ℚ
deriving DecidableEq, Repr

/-- `commitEdit`: only `!isNaN(v) && v > 0` commits; `wallHeight` is stored
as typed, `width`/`height` are converted display → canonical meters. -/
def commitEdit (es : Option EditState) (u : DimensionUnit)
    (rooms : List Room) : List Room :=
  match es with
  | none => rooms
  | some e =>
    match e.value with
    | none => rooms
    | some v =>
      if 0 < v then
        match e.field with
        | .wallHeight => handleRoomUpdate e.roomId (.wallHeight v) rooms
        | .width =>
          handleRoomUpdate e.roomId (.width (v * (currentUnit u).toMeter)) rooms
        | .height =>
          handleRoomUpdate e.roomId (.height (v * (currentUnit u).toMeter)) rooms
      else rooms

inductive WallField where
  | thickness
  | wallHeight
deriving DecidableEq, Repr

/-- The pending wall edit (`WallEditState`). -/
structure WallEditState where
  wallId : String
  field : WallField
  value : Option ℚ
deriving DecidableEq, Repr

/-- `commitWallEdit`: only `!isNaN(v) && v > 0` commits; thickness is
entered in cm and stored as `v / 100` meters. -/
def commitWallEdit (es : Option WallEditState)
    (walls : List DetectedWallSegment) : List DetectedWallSegment :=
  match es with
  | none => walls
  | some e =>
    match e.value with
    | none => walls
    | some v =>
      if 0 < v then
        match e.field with
        | .thickness => handleWallUpdate e.wallId (.thickness (v / 100)) walls
        | .wallHeight => handleWallUpdate e.wallId (.wallHeight v) walls
      else walls

/-! ## Overlay coordinate mapper (`WallReview.tsx`) -/

/-- The observed rendered image box, `useState({ w: 1, h: 1 })`. -/
structure ImgSize where
  w : ℚ
  h : ℚ
deriving DecidableEq, Repr

/-- The state before any resize observation lands. -/
def initialImgSize : ImgSize := ⟨1, 1⟩

/-- A normalised point of the detection coordinate space. -/
structure NPoint where
  x : ℚ
  y : ℚ
deriving DecidableEq, Repr

/-- `bx = (v) => v * imgSize.w`. -/
def bx (size : ImgSize) (v : ℚ) : ℚ := v * size.w

/-- `by = (v) => v * imgSize.h` (`by` is reserved in Lean). -/
def byPx (size : ImgSize) (v : ℚ) : ℚ := v * size.h

/-- Normalised point → pixel point by scalar multiplication. -/
def toPixel (size : ImgSize) (p : NPoint) : NPoint :=
  ⟨bx size p.x, byPx size p.y⟩

/-! ## Sidebar numeric inputs (`src/components/Sidebar.tsx`) -/

/-- `parseFloat(text) || d`: `NaN` and `0` both fall through to `d`. -/
def jsOr (p : Option ℚ) (d : ℚ) : ℚ :=
  match p with
  | some v => if v = 0 then d else v
  | none => d

/-- The Sidebar width input's `onChange`:
`onRoomUpdate(id, "width", (parseFloat(x) || 0) * currentUnit.toMeter)`. -/
def sidebarWidthChange (parsed : Option ℚ) (u : DimensionUnit) (id : String)
    (rooms : List Room) : List Room :=
  handleRoomUpdate id (.width (jsOr parsed 0 * (currentUnit u).toMeter)) rooms

/-- The Sidebar depth input's `onChange` (stored in the `height` field). -/
def sidebarHeightChange (parsed : Option ℚ) (u : DimensionUnit) (id : String)
    (rooms : List Room) : List Room :=
  handleRoomUpdate id (.height (jsOr parsed 0 * (currentUnit u).toMeter)) rooms

/-- The Sidebar wall-height input's `onChange`:
`onRoomUpdate(id, "wallHeight", parseFloat(x) || 2.8)`. -/
def sidebarWallHeightChange (parsed : Option ℚ) (id : String)
    (rooms : List Room) : List Room :=
  handleRoomUpdate id (.wallHeight (jsOr parsed 2.8)) rooms

/-! ## Detection handler state (`Index` page component) -/

structure AppState where
  rooms : List Room
  walls : List DetectedWallSegment
  doors : List DetectedDoor
  windows : List DetectedWindow
  detected : Bool
  detecting : Bool
  detectError : Option String
  usedMock : Bool
  generated : Bool
deriving DecidableEq, Repr

/-- The message shown for a rejected detection call. -/
def detectErrorMessage (msg : String) : String :=
  if msg = "NO_API_KEY" then
    "กรุณาเพิ่ม VITE_GEMINI_API_KEY ใน .env แล้ว restart server"
  else
    "เกิดข้อผิดพลาด: " ++ msg

/-- `handleDetect`: guarded on an image being present; sets
`detecting`/`detectError`/`usedMock` up front, then either installs the
detection result or records the error message; `finally` clears
`detecting`. The awaited call's outcome is the `outcome` argument. -/
def handleDetect (hasImage : Bool) (s : AppState)
    (outcome : Except String DetectFloorPlanResult) : AppState :=
  if hasImage = false then s
  else
    let s1 := { s with detecting := true, detectError := none, usedMock := false }
    match outcome with
    | .ok r =>
      { s1 with rooms := r.rooms, walls := r.walls, doors := r.doors,
                windows := r.windows, usedMock := r.usedMock,
                detected := true, generated := false, detecting := false }
    | .error e =>
      { s1 with detectError := some (detectErrorMessage e), detecting := false }

/-! ## Concrete inputs used to exercise the theorems -/

/-- A door-sized bbox, wider than tall (the shape of `d1` in the prompt's
example JSON). -/
def demoDoor : DetectedDoor := ⟨"d1", ⟨0.20, 0.09, 0.04, 0.02⟩, 0.9⟩

/-- A square opening bbox: the tie case. -/
def demoSquareDoor : DetectedDoor := ⟨"d2", ⟨0.30, 0.30, 0.05, 0.05⟩, 0.9⟩

/-- A window taller than wide. -/
def demoWindow : DetectedWindow := ⟨"win1", ⟨0.05, 0.23, 0.012, 0.07⟩, 1.0⟩

/-- The two rooms of the spec's basic scene-assembly scenario. -/
def roomA : Room :=
  { id := "a", name := "Room A", width := 3, height := 3, confidence := .high,
    bbox := some ⟨0, 0, 0.5, 0.5⟩ }

def roomB : Room :=
  { id := "b", name := "Room B", width := 3, height := 3, confidence := .high,
    bbox := some ⟨0.5, 0, 0.5, 0.5⟩ }

/-- A detected room of confidence `high` with no optional fields set. -/
def roomHigh : Room :=
  { id := "r1", name := "Living Room", width := 3, height := 3,
    confidence := .high }

/-- A horizontal wall segment of raw world length 10. -/
def wallH : DetectedWallSegment :=
  { id := "h", x1 := 0, y1 := 0, x2 := 0.5, y2 := 0, type := .interior }

/-- A vertical wall segment of the same raw world length 10. -/
def wallV : DetectedWallSegment :=
  { id := "v", x1 := 0, y1 := 0, x2 := 0, y2 := 0.5, type := .interior }

/-- A degenerate wall segment of raw length 0. -/
def wallTiny : DetectedWallSegment :=
  { id := "t", x1 := 0.2, y1 := 0.2, x2 := 0.2, y2 := 0.2, type := .interior }

/-- A network oracle: the first model is unknown (404), every later
attempt exhausts the quota (429). -/
def demoAttempt : String → Attempt := fun m =>
  if m = "gemini-2.0-flash" then .status 404 else .status 429

/-- A session state in which a previous detection used the mock dataset. -/
def mockOnState : AppState :=
  { rooms := [roomHigh], walls := [], doors := [], windows := [],
    detected := true, detecting := false, detectError := none,
    usedMock := true, generated := false }

/-! ## Theorems -/

lemma currentUnit_m : currentUnit .m = ⟨.m, 1⟩ := rfl

lemma currentUnit_cm : currentUnit .cm = ⟨.cm, 0.01⟩ := rfl

lemma currentUnit_mm : currentUnit .mm = ⟨.mm, 0.001⟩ := rfl

lemma currentUnit_ft : currentUnit .ft = ⟨.ft, 0.3048⟩ := rfl

/-- C9: before the first size measurement the observed box is 1×1, so the
overlay mapper's `toPixel` (scalar multiplication by the observed width and
height) is the identity — no division is involved anywhere. -/
theorem overlay_initial_identity :
    (∀ p : NPoint, toPixel initialImgSize p = p)
    ∧ (∀ v : ℚ, bx initialImgSize v = v)
    ∧ (∀ v : ℚ, byPx initialImgSize v = v) := by
  refine ⟨fun p => ?_, fun v => ?_, fun v => ?_⟩
  · cases p with
    | mk x y => simp [toPixel, bx, byPx, initialImgSize]
  · simp [bx, initialImgSize]
  · simp [byPx, initialImgSize]

/-- C3: the derived opening orientation is `isHorizontal = (bbox.w > bbox.h)`
for doors and windows alike; a square bbox resolves to vertical
(`isHorizontal = false`). -/
theorem opening_orientation :
    (∀ d : DetectedDoor, d.bbox.h < d.bbox.w → doorIsHorizontal d = true)
    ∧ (∀ d : DetectedDoor, d.bbox.w < d.bbox.h → doorIsHorizontal d = false)
    ∧ (∀ d : DetectedDoor, d.bbox.w = d.bbox.h → doorIsHorizontal d = false)
    ∧ (∀ (win : DetectedWindow) (d : DetectedDoor), win.bbox = d.bbox →
        windowIsHorizontal win = doorIsHorizontal d)
    ∧ doorIsHorizontal demoDoor = true
    ∧ doorIsHorizontal demoSquareDoor = false
    ∧ windowIsHorizontal demoWindow = false := by
  have h20 : (0 : ℚ) < PLAN_SIZE := by norm_num [PLAN_SIZE]
  refine ⟨fun d h => ?_, fun d h => ?_, fun d h => ?_, fun w d h => ?_,
    by simp only [doorIsHorizontal, demoDoor, PLAN_SIZE, decide_eq_true_eq]; norm_num,
    by simp only [doorIsHorizontal, demoSquareDoor, PLAN_SIZE,
      decide_eq_false_iff_not, not_lt]; norm_num,
    by simp only [windowIsHorizontal, demoWindow, PLAN_SIZE,
      decide_eq_false_iff_not, not_lt]; norm_num⟩
  · simp only [doorIsHorizontal, decide_eq_true_eq]
    exact (mul_lt_mul_right h20).mpr h
  · simp only [doorIsHorizontal, decide_eq_false_iff_not, not_lt]
    exact (mul_le_mul_right h20).mpr h.le
  · simp [doorIsHorizontal, h]
  · simp [windowIsHorizontal, doorIsHorizontal, h]

/-- C4: when every room carries a bbox, `computePositions` anchors each room
at the bbox centre mapped by `normalized * PLAN_SIZE - PLAN_SIZE / 2` and
multiplied by the global scale; the spec's two-room scenario yields
`(-5, 0, -5)` and `(5, 0, -5)`. -/
theorem room_placement_anchor :
    (∀ (rooms : List Room) (scale : ℚ),
        (∀ r ∈ rooms, r.bbox.isSome) →
        computePositions rooms scale =
          rooms.map (fun r => bboxAnchor (r.bbox.getD ⟨0, 0, 0, 0⟩) scale))
    ∧ computePositions [roomA, roomB] 1 = [(-5, 0, -5), (5, 0, -5)] := by
  constructor
  · intro rooms scale h
    unfold computePositions
    rw [if_pos (List.all_eq_true.mpr fun r hr => h r hr)]
  · norm_num [computePositions, roomA, roomB, bboxAnchor, PLAN_SIZE]

/-- C6: the effective wall thickness follows explicit value →
ratio-derived value → type default: `tryModel` fills `thickness` with
`clamp(thicknessRatio * 20, 0.05, 0.5)` when a ratio is supplied, with the
type default (0.25 exterior / 0.15 interior) otherwise, and the renderer
uses an explicit `thickness` whenever present, falling back to the type
default. -/
theorem thickness_resolution :
    (∀ raw : RawWall,
        getWallThickness (mapDetectedWall raw) =
          match raw.thicknessRatio with
          | some r => max 0.05 (min 0.5 (r * PLAN_SIZE))
          | none =>
            match raw.type.getD .interior with
            | .exterior => 0.25
            | .interior => 0.15)
    ∧ (∀ (w : DetectedWallSegment) (t : ℚ),
        w.thickness = some t → getWallThickness w = t)
    ∧ (∀ w : DetectedWallSegment, w.thickness = none →
        getWallThickness w =
          match w.type with | .exterior => 0.25 | .interior => 0.15)
    ∧ getWallThickness (mapDetectedWall
        { id := "w1", x1 := 0.05, y1 := 0.10, x2 := 0.45, y2 := 0.10,
          type := some .exterior, thicknessRatio := some 0.012 }) = 0.24 := by
  refine ⟨fun raw => ?_, fun w t h => ?_, fun w h => ?_,
    by norm_num [mapDetectedWall, getWallThickness, clampThickness,
      min_def, max_def]⟩
  · rcases raw with ⟨i, x1, y1, x2, y2, ty, tr⟩
    cases tr with
    | none =>
      cases ty with
      | none => simp [mapDetectedWall, getWallThickness]
      | some t' => cases t' <;> simp [mapDetectedWall, getWallThickness]
    | some r => simp [mapDetectedWall, getWallThickness, clampThickness, PLAN_SIZE]
  · simp [getWallThickness, h]
  · simp [getWallThickness, h]

/-- C8: for every display unit, converting a value to canonical meters and
back returns it exactly (hence within 1e-9 relative tolerance), and a
committed edit stores exactly `v * metersPerUnit`, unrounded. -/
theorem unit_round_trip :
    (∀ (u : DimensionUnit) (v : ℚ), fromCanonical (toCanonical v u) u = v)
    ∧ (∀ (u : DimensionUnit) (v : ℚ), 0 < v →
        |fromCanonical (toCanonical v u) u - v| ≤ 1 / 1000000000 * v)
    ∧ (∀ (u : DimensionUnit) (v : ℚ) (id : String) (rooms : List Room),
        0 < v →
        commitEdit (some ⟨id, .width, some v⟩) u rooms =
          handleRoomUpdate id (.width (toCanonical v u)) rooms)
    ∧ fromCanonical (toCanonical 3 .ft) .ft = 3 := by
  have key : ∀ (u : DimensionUnit) (v : ℚ), fromCanonical (toCanonical v u) u = v := by
    intro u v
    cases u with
    | m => simp only [toCanonical, fromCanonical, currentUnit_m]; norm_num
    | cm =>
      simp only [toCanonical, fromCanonical, currentUnit_cm]
      rw [mul_div_assoc]; norm_num
    | mm =>
      simp only [toCanonical, fromCanonical, currentUnit_mm]
      rw [mul_div_assoc]; norm_num
    | ft =>
      simp only [toCanonical, fromCanonical, currentUnit_ft]
      rw [mul_div_assoc]; norm_num
  refine ⟨key, fun u v hv => ?_, fun u v id rooms hv => ?_, key .ft 3⟩
  · rw [key, sub_self, abs_zero]
    positivity
  · simp [commitEdit, hv, toCanonical]

/-- C2 counterexample: editing `wallHeight` on a room of confidence `high`
leaves its confidence `high` — it does not move to `manual` as the claim
states for wallHeight edits. -/
theorem wallHeight_edit_keeps_confidence :
    (handleRoomUpdate "r1" (.wallHeight 3) [roomHigh]).map Room.confidence
      = [Confidence.high]
    ∧ Confidence.high ≠ Confidence.manual := by
  constructor
  · simp [handleRoomUpdate, applyRoomEdit, roomHigh]
  · simp

/-- C2 (amended): a user edit to `width` or `height` moves the edited room's
confidence to `manual` and `manual` is terminal, while edits to
`wallHeight` or `material` leave every room's confidence unchanged; wall
edits carry no confidence at all. -/
theorem confidence_downgrade :
    (∀ (id : String) (v : ℚ) (rooms : List Room),
        (handleRoomUpdate id (.width v) rooms).map Room.confidence =
          rooms.map fun r => if r.id = id then Confidence.manual else r.confidence)
    ∧ (∀ (id : String) (v : ℚ) (rooms : List Room),
        (handleRoomUpdate id (.height v) rooms).map Room.confidence =
          rooms.map fun r => if r.id = id then Confidence.manual else r.confidence)
    ∧ (∀ (id : String) (v : ℚ) (rooms : List Room),
        (handleRoomUpdate id (.wallHeight v) rooms).map Room.confidence =
          rooms.map Room.confidence)
    ∧ (∀ (id s : String) (rooms : List Room),
        (handleRoomUpdate id (.material s) rooms).map Room.confidence =
          rooms.map Room.confidence)
    ∧ (∀ (r : Room) (e : RoomEdit), r.confidence = .manual →
        (applyRoomEdit e r).confidence = .manual)
    ∧ (handleRoomUpdate "r1" (.width 4) [roomHigh]).map Room.confidence
        = [Confidence.manual] := by
  refine ⟨fun id v rooms => ?_, fun id v rooms => ?_, fun id v rooms => ?_,
    fun id s rooms => ?_, fun r e h => ?_, ?_⟩
  · simp only [handleRoomUpdate, List.map_map]
    refine congrArg (fun f => List.map f rooms) (funext fun r => ?_)
    by_cases h : r.id = id <;> simp [h, applyRoomEdit]
  · simp only [handleRoomUpdate, List.map_map]
    refine congrArg (fun f => List.map f rooms) (funext fun r => ?_)
    by_cases h : r.id = id <;> simp [h, applyRoomEdit]
  · simp only [handleRoomUpdate, List.map_map]
    refine congrArg (fun f => List.map f rooms) (funext fun r => ?_)
    by_cases h : r.id = id <;> simp [h, applyRoomEdit]
  · simp only [handleRoomUpdate, List.map_map]
    refine congrArg (fun f => List.map f rooms) (funext fun r => ?_)
    by_cases h : r.id = id <;> simp [h, applyRoomEdit]
  · cases e <;> simp [applyRoomEdit, h]
  · simp [handleRoomUpdate, applyRoomEdit, roomHigh]

/-- C7 counterexample: in the Sidebar width input, a non-numeric edit is
coerced by `parseFloat(x) || 0` and commits width 0 to the geometry state —
not a no-op retaining the previous canonical value 3. -/
theorem sidebar_invalid_writes_zero :
    (sidebarWidthChange none .m "r1" [roomHigh]).map Room.width = [0]
    ∧ roomHigh.width = 3
    ∧ sidebarWidthChange none .m "r1" [roomHigh] ≠ [roomHigh] := by
  refine ⟨?_, rfl, ?_⟩
  · simp [sidebarWidthChange, jsOr, handleRoomUpdate, applyRoomEdit, roomHigh]
  · intro h
    have := congrArg (fun l => l.map Room.width) h
    simp [sidebarWidthChange, jsOr, handleRoomUpdate, applyRoomEdit, roomHigh] at this

/-- C7 (amended): the review panel's `commitEdit`/`commitWallEdit` treat a
non-numeric or non-positive input as a no-op (previous canonical values
retained), whereas the Sidebar inputs coerce such input — to 0 for
width/height and to 2.8 for wallHeight — and write that value; no `NaN` is
ever written. -/
theorem invalid_edit_handling :
    (∀ (e : EditState) (u : DimensionUnit) (rooms : List Room),
        e.value = none → commitEdit (some e) u rooms = rooms)
    ∧ (∀ (e : EditState) (u : DimensionUnit) (rooms : List Room) (v : ℚ),
        e.value = some v → v ≤ 0 → commitEdit (some e) u rooms = rooms)
    ∧ (∀ (e : WallEditState) (walls : List DetectedWallSegment),
        e.value = none → commitWallEdit (some e) walls = walls)
    ∧ (∀ (e : WallEditState) (walls : List DetectedWallSegment) (v : ℚ),
        e.value = some v → v ≤ 0 → commitWallEdit (some e) walls = walls)
    ∧ (∀ (u : DimensionUnit) (id : String) (rooms : List Room),
        sidebarWidthChange none u id rooms =
          handleRoomUpdate id (.width 0) rooms)
    ∧ (∀ (u : DimensionUnit) (id : String) (rooms : List Room),
        sidebarHeightChange none u id rooms =
          handleRoomUpdate id (.height 0) rooms)
    ∧ (∀ (id : String) (rooms : List Room),
        sidebarWallHeightChange none id rooms =
          handleRoomUpdate id (.wallHeight 2.8) rooms)
    ∧ commitEdit (some ⟨"r1", .width, none⟩) .m [roomHigh] = [roomHigh] := by
  refine ⟨fun e u rooms h => ?_, fun e u rooms v hval hv => ?_,
    fun e walls h => ?_, fun e walls v hval hv => ?_,
    fun u id rooms => ?_, fun u id rooms => ?_, fun id rooms => ?_, rfl⟩
  · obtain ⟨rid, f, val⟩ := e
    simp only at h
    subst h
    rfl
  · obtain ⟨rid, f, val⟩ := e
    simp only at hval
    subst hval
    simp only [commitEdit]
    rw [if_neg (not_lt.mpr hv)]
  · obtain ⟨wid, f, val⟩ := e
    simp only at h
    subst h
    rfl
  · obtain ⟨wid, f, val⟩ := e
    simp only at hval
    subst hval
    simp only [commitWallEdit]
    rw [if_neg (not_lt.mpr hv)]
  · simp [sidebarWidthChange, jsOr]
  · simp [sidebarHeightChange, jsOr]
  · simp [sidebarWallHeightChange, jsOr]

/-- C10 counterexample: a rejected detection call does not update only the
error message and the detecting flag — it also resets `usedMock` from
`true` to `false`. -/
theorem detect_error_clears_usedMock :
    mockOnState.usedMock = true
    ∧ (handleDetect true mockOnState (.error "API_ERROR_500")).usedMock = false
    ∧ (handleDetect true mockOnState (.error "API_ERROR_500")).usedMock
        ≠ mockOnState.usedMock := by
  refine ⟨rfl, rfl, ?_⟩
  simp [handleDetect, mockOnState]

/-- C10 (amended): when the detection call rejects, `handleDetect` leaves
the rooms, walls, doors and windows collections and the `detected` and
`generated` flags unchanged, and updates exactly the error message, the
`detecting` flag and the `usedMock` flag (reset to `false`). -/
theorem handleDetect_error_atomicity :
    ∀ (s : AppState) (e : String),
      (handleDetect true s (.error e)).rooms = s.rooms
      ∧ (handleDetect true s (.error e)).walls = s.walls
      ∧ (handleDetect true s (.error e)).doors = s.doors
      ∧ (handleDetect true s (.error e)).windows = s.windows
      ∧ (handleDetect true s (.error e)).detected = s.detected
      ∧ (handleDetect true s (.error e)).generated = s.generated
      ∧ (handleDetect true s (.error e)).detecting = false
      ∧ (handleDetect true s (.error e)).usedMock = false
      ∧ (handleDetect true s (.error e)).detectError
          = some (detectErrorMessage e) := by
  intro s e
  refine ⟨?_, ?_, ?_, ?_, ?_, ?_, ?_, ?_, ?_⟩ <;> simp [handleDetect]

/-- C1: the wall solid's length is exactly `max(0.01, rawLength − thickness)`
(the code's `halfT * 2` is one whole thickness), it depends on the segment
only through its raw length and thickness (so it is independent of the
heading angle), it never falls below the fixed epsilon 0.01, and a segment
of near-zero raw length yields exactly the minimum length instead of an
error: a horizontal and a vertical segment of equal raw length agree, and a
zero-length segment yields 0.01. -/
theorem wall_solid_length :
    (∀ w : DetectedWallSegment,
        effectiveLength w = max 0.01 (rawLength w - (getWallThickness w : ℝ)))
    ∧ (∀ w w' : DetectedWallSegment, rawLength w' = rawLength w →
        getWallThickness w' = getWallThickness w →
        effectiveLength w' = effectiveLength w)
    ∧ (∀ w : DetectedWallSegment, 0.01 ≤ effectiveLength w)
    ∧ (∀ w : DetectedWallSegment,
        rawLength w ≤ (getWallThickness w : ℝ) + 0.01 →
        effectiveLength w = 0.01)
    ∧ effectiveLength wallV = effectiveLength wallH
    ∧ effectiveLength wallTiny = 0.01 := by
  have formula : ∀ w : DetectedWallSegment,
      effectiveLength w = max 0.01 (rawLength w - (getWallThickness w : ℝ)) := by
    intro w
    unfold effectiveLength
    congr 1
    ring
  have invar : ∀ w w' : DetectedWallSegment, rawLength w' = rawLength w →
      getWallThickness w' = getWallThickness w →
      effectiveLength w' = effectiveLength w := by
    intro w w' h1 h2
    rw [formula, formula, h1, h2]
  have minlen : ∀ w : DetectedWallSegment,
      rawLength w ≤ (getWallThickness w : ℝ) + 0.01 →
      effectiveLength w = 0.01 := by
    intro w h
    rw [formula w]
    apply max_eq_left
    linarith
  refine ⟨formula, invar, fun w => ?_, minlen, ?_, ?_⟩
  · rw [formula w]
    exact le_max_left _ _
  · refine invar wallH wallV ?_ rfl
    simp only [rawLength, worldCoord, PLAN_SIZE, wallV, wallH]
    norm_num
  · refine minlen wallTiny ?_
    have h0 : rawLength wallTiny = 0 := by
      simp only [rawLength, worldCoord, PLAN_SIZE, wallTiny]
      norm_num
    rw [h0]
    norm_num [getWallThickness, wallTiny]

lemma finishDetect_error (s : ℤ) (e : String) :
    finishDetect s = .error e → s ≠ 429 ∧ s ≠ 403 ∧ e = apiError s := by
  intro h
  unfold finishDetect at h
  split_ifs at h with h1 h2
  all_goals injection h with h3
  exact ⟨h1, h2, h3.symm⟩

lemma runModels_error (attempt : String → Attempt) (models : List String) :
    ∀ (last : ℤ) (e : String), runModels attempt models last = .error e →
      ∃ s : ℤ, s ≠ 429 ∧ s ≠ 403 ∧ e = apiError s := by
  induction models with
  | nil =>
    intro last e h
    simp only [runModels] at h
    exact ⟨last, finishDetect_error last e h⟩
  | cons m rest ih =>
    intro last e h
    cases ha : attempt m with
    | success r =>
      simp only [runModels, ha] at h
      exact absurd h (by simp)
    | status s =>
      simp only [runModels, ha] at h
      by_cases h404 : s = 404
      · rw [if_neg (fun hn => hn h404)] at h
        exact ih s e h
      · rw [if_pos h404] at h
        exact ⟨s, finishDetect_error s e h⟩

lemma runModels_mock (attempt : String → Attempt) (pre : List String) :
    ∀ (m : String) (rest : List String) (s last : ℤ),
      (∀ m' ∈ pre, attempt m' = .status 404) →
      attempt m = .status s → (s = 429 ∨ s = 403) →
      runModels attempt (pre ++ m :: rest) last = .ok mockFallback := by
  induction pre with
  | nil =>
    intro m rest s last _ hm hs
    simp only [List.nil_append, runModels, hm]
    rw [if_pos (by rcases hs with h | h <;> omega)]
    unfold finishDetect
    rcases hs with h | h
    · rw [if_pos h]
    · rw [if_neg (by omega), if_pos h]
  | cons p pre' ih =>
    intro m rest s last hpre hm hs
    simp only [List.cons_append, runModels, hpre p (by simp)]
    rw [if_neg (by simp)]
    exact ih m rest s 404 (fun m' hm' => hpre m' (by simp [hm'])) hm hs

/-- C5: `detectFloorPlan` rejects exactly with `NO_API_KEY` (no configured
key) or `API_ERROR_<status>`; a status of 429 or 403 never produces a
rejection — whenever the model loop hits a 429/403 (after any prefix of
404s) the call resolves with the canned mock dataset flagged
`usedMock := true`; concretely, 404 then 429 resolves with the mock. -/
theorem detect_contract :
    (∀ attempt, detectFloorPlan none attempt = .error "NO_API_KEY")
    ∧ (∀ (k : String) (attempt : String → Attempt) (e : String),
        detectFloorPlan (some k) attempt = .error e →
        ∃ s : ℤ, s ≠ 429 ∧ s ≠ 403 ∧ e = apiError s)
    ∧ (∀ (k : String) (attempt : String → Attempt) (pre : List String)
        (m : String) (rest : List String) (s : ℤ),
        MODELS = pre ++ m :: rest →
        (∀ m' ∈ pre, attempt m' = .status 404) →
        attempt m = .status s → (s = 429 ∨ s = 403) →
        detectFloorPlan (some k) attempt = .ok mockFallback)
    ∧ (detectFloorPlan (some "key") demoAttempt = .ok mockFallback
        ∧ mockFallback.usedMock = true) := by
  refine ⟨fun attempt => rfl,
    fun k attempt e h => ?_,
    fun k attempt pre m rest s hM hpre hm hs => ?_, ?_, rfl⟩
  · simp only [detectFloorPlan] at h
    exact runModels_error attempt MODELS 0 e h
  · simp only [detectFloorPlan]
    rw [hM]
    exact runModels_mock attempt pre m rest s 0 hpre hm hs
  · have h1 : demoAttempt "gemini-2.0-flash" = .status 404 := rfl
    have h2 : demoAttempt "gemini-1.5-flash" = .status 429 := rfl
    have : MODELS = ["gemini-2.0-flash"] ++ "gemini-1.5-flash" :: ["gemini-2.0-flash-lite"] := rfl
    simp only [detectFloorPlan, this]
    refine runModels_mock demoAttempt ["gemini-2.0-flash"] "gemini-1.5-flash"
      ["gemini-2.0-flash-lite"] 429 0 ?_ h2 (Or.inl rfl)
    intro m' hm'
    simp only [List.mem_singleton] at hm'
    subst hm'
    exact h1

end FloorPlanProof
